import Mathlib

/-!
# Verification of the dashboard reconciliation controller

Shallow embedding of `controllers/dashboard_controller.go` of the
grafana-operator-experimental repository, together with proofs about the
claims of its specification.

The controller file is embedded function by function.  Types from the
`api/v1beta1` package (the tracked dashboard list and its `Find` / `Remove` /
`Add` helpers, `GetSourceTypes`, `Hash`, `Unchanged`, `GetResyncPeriod`, the
readiness stage constants) are not part of the sources at hand; they are
modelled from the specification and marked as such in their doc comments.
The external grafana HTTP client is modelled as a pure state (set of backend
dashboards and folders) with explicit success / 404 results, and every call
made through it is recorded in a trace so that theorems can speak about
which backend requests a code path issues.
-/

deriving instance DecidableEq for Except

/-- Errors surfaced by the modelled grafana client and controller helpers.
`notFound404` stands for any error whose message contains "status: 404"
(the string the Go code tests with `strings.Contains`). -/
inductive GrafanaErr where
  | notFound404
  | badRequest (msg : String)
  | internal (msg : String)
  | configErr (msg : String)
deriving DecidableEq, Repr

/-- Modelled from the spec: one entry of an instance's Tracked Dashboard
List, a (namespace, name, backend-uid) triple.  In the Go api package this
is the string "namespace/name/uid" with `Split` / `Namespace()` / `Name()`
accessors. -/
structure TrackedEntry where
  ns : String
  name : String
  uid : String
deriving DecidableEq, Repr

/-- Modelled from the spec: `NamespacedResourceList.Find` — returns the uid
of the entry matching the given namespace and name, if any. -/
def trackedFind (l : List TrackedEntry) (ns name : String) : Option String :=
  (l.find? (fun e => e.ns == ns && e.name == name)).map (fun e => e.uid)

/-- Modelled from the spec: `NamespacedResourceList.Remove` — drops every
entry matching the given namespace and name. -/
def trackedRemove (l : List TrackedEntry) (ns name : String) : List TrackedEntry :=
  l.filter (fun e => !(e.ns == ns && e.name == name))

/-- Modelled from the spec: `NamespacedResourceList.Add` — replaces any
existing entry for (namespace, name) and appends the new triple, keeping
the at-most-one-entry-per-(namespace, name) invariant of the spec. -/
def trackedAdd (l : List TrackedEntry) (ns name uid : String) : List TrackedEntry :=
  trackedRemove l ns name ++ [⟨ns, name, uid⟩]

/-- Modelled from the spec: readiness stage value `OperatorStageComplete`. -/
def OperatorStageComplete : String := "complete"

/-- Modelled from the spec: readiness stage result `OperatorStageResultSuccess`. -/
def OperatorStageResultSuccess : String := "success"

/-- A Grafana instance resource: its identity, the readiness stage of its
observed status and the Tracked Dashboard List of its status
(`Status.Dashboards` in the Go code). -/
structure Grafana where
  name : String
  stage : String
  stageStatus : String
  dashboards : List TrackedEntry
deriving DecidableEq, Repr

/-- The readiness test of `Reconcile` (dashboard_controller.go line 193):
stage must be complete and its result success. -/
def Grafana.ready (g : Grafana) : Bool :=
  g.stage == OperatorStageComplete && g.stageStatus == OperatorStageResultSuccess

/-- The spec-relevant fields of `GrafanaDashboardSpec`: the inline JSON
source, the remote URL source, and the folder title. -/
structure DashboardSpec where
  json : String
  url : String
  folderTitle : String
deriving DecidableEq, Repr

/-- A GrafanaDashboard resource: identity (namespace, name, Kubernetes UID),
spec, the content hash recorded in status, and the declared resync period
(`GetResyncPeriod`, modelled from the spec as an abstract duration). -/
structure GrafanaDashboard where
  ns : String
  name : String
  uid : String
  spec : DashboardSpec
  statusHash : String
  resyncPeriod : Nat
deriving DecidableEq, Repr

/-- The two dashboard content source kinds. -/
inductive DashboardSourceType where
  | rawJson
  | url
deriving DecidableEq, Repr

/-- Modelled from the spec: `GrafanaDashboard.GetSourceTypes` (api/v1beta1) —
the content sources are whichever of the inline JSON and the remote URL
fields are set; the spec requires exactly one to be set. -/
def GrafanaDashboard.GetSourceTypes (cr : GrafanaDashboard) : List DashboardSourceType :=
  (if cr.spec.json != "" then [DashboardSourceType.rawJson] else []) ++
    (if cr.spec.url != "" then [DashboardSourceType.url] else [])

/-- External collaborators that the controller calls but whose code is
outside this repository: the content digest used for the status hash and
the URL fetcher.  Both are parameters of the embedding. -/
structure Env where
  hashFn : String → String
  fetchUrl : String → Except GrafanaErr String

/-- Modelled from the spec: `GrafanaDashboard.Hash` — a digest of the
resolved dashboard JSON held in `Spec.Json`. -/
def GrafanaDashboard.Hash (cr : GrafanaDashboard) (env : Env) : String :=
  env.hashFn cr.spec.json

/-- Modelled from the spec: `GrafanaDashboard.Unchanged` — the hash recorded
in status equals the hash of the current content. -/
def GrafanaDashboard.Unchanged (cr : GrafanaDashboard) (env : Env) : Bool :=
  cr.Hash env == cr.statusHash

/-- A dashboard as the backend knows it: its uid and the numeric id of the
folder containing it. -/
structure BackendDashboard where
  uid : String
  folderID : Int
deriving DecidableEq, Repr

/-- A folder as the backend knows it: numeric id, uid and title. -/
structure BackendFolder where
  id : Int
  uid : String
  title : String
deriving DecidableEq, Repr

/-- The state of one grafana backend instance.  `newDashStatus` is the
status string the backend answers to a create-or-overwrite call (the Go
code checks it against "success"); `nextFolderID` is the id the backend
assigns to the next created folder. -/
structure Backend where
  dashboards : List BackendDashboard
  folders : List BackendFolder
  newDashStatus : String
  nextFolderID : Int
deriving DecidableEq, Repr

/-- One request issued to a backend through the grafana client. -/
inductive BackendCall where
  | listDashboards
  | getDashboardByUID (uid : String)
  | deleteDashboardByUID (uid : String)
  | newDashboard (uid : String) (folderID : Int)
  | listFolders
  | newFolder (title : String)
  | deleteFolder (uid : String)
deriving DecidableEq, Repr

/-- A status write issued to the resource store: either an instance status
update carrying its tracked dashboard list, or a dashboard status update
carrying its new hash. -/
inductive StatusWrite where
  | grafanaStatus (name : String) (dashboards : List TrackedEntry)
  | dashboardStatus (ns name hash : String)
deriving DecidableEq, Repr

/-- `client.DashboardByUID`: the dashboard when the uid is present,
a 404 error otherwise. -/
def Backend.dashboardByUID (b : Backend) (uid : String) : Except GrafanaErr BackendDashboard :=
  match b.dashboards.find? (fun d => d.uid == uid) with
  | some d => Except.ok d
  | none => Except.error GrafanaErr.notFound404

/-- `client.DeleteDashboardByUID`: removes the dashboard when present,
a 404 error otherwise. -/
def Backend.deleteDashboardByUID (b : Backend) (uid : String) : Except GrafanaErr Backend :=
  if b.dashboards.any (fun d => d.uid == uid) then
    Except.ok { b with dashboards := b.dashboards.filter (fun d => !(d.uid == uid)) }
  else
    Except.error GrafanaErr.notFound404

/-- The backend effect of `client.NewDashboard` with `Overwrite: true`:
when the backend answers "success" the dashboard replaces any previous one
with the same uid; on a non-success status the backend is unchanged. -/
def Backend.upsertDashboard (b : Backend) (uid : String) (folderID : Int) : Backend :=
  { b with dashboards := b.dashboards.filter (fun d => !(d.uid == uid)) ++ [⟨uid, folderID⟩] }

/-- `client.DeleteFolder` (called with the folder id formatted as a string):
removes the folder whose uid matches, a 404 error otherwise. -/
def Backend.deleteFolder (b : Backend) (uidStr : String) : Except GrafanaErr Backend :=
  if b.folders.any (fun f => f.uid == uidStr) then
    Except.ok { b with folders := b.folders.filter (fun f => !(f.uid == uidStr)) }
  else
    Except.error GrafanaErr.notFound404

/-- `Exists` of the controller (dashboard_controller.go lines 373-385),
renamed because `Exists` is taken by the Lean prelude: lists the backend
dashboards and looks for the resource's Kubernetes UID among them. -/
def ExistsDashboard (b : Backend) (cr : GrafanaDashboard) : Bool :=
  b.dashboards.any (fun d => d.uid == cr.uid)

/-- `GetFolderID` (dashboard_controller.go lines 408-422): list the backend
folders and return the id of the first one whose title matches the
resource's folder title; 0 when none matches.  Note that when the first
matching folder itself has id 0, the result is also 0. -/
def GetFolderID (b : Backend) (cr : GrafanaDashboard) : Int :=
  match b.folders.find? (fun f => f.title == cr.spec.folderTitle) with
  | some f => f.id
  | none => 0

/-- `GetOrCreateFolder` (dashboard_controller.go lines 387-406): empty title
means folder id 0 with no backend call; otherwise look the title up and,
when the looked-up id is 0, create the folder and return the new id.
Returns the result together with the new backend state and the calls
issued. -/
def GetOrCreateFolder (b : Backend) (cr : GrafanaDashboard) :
    Except GrafanaErr Int × Backend × List BackendCall :=
  if cr.spec.folderTitle == "" then
    (Except.ok 0, b, [])
  else
    let folderID := GetFolderID b cr
    if folderID != 0 then
      (Except.ok folderID, b, [BackendCall.listFolders])
    else
      let newID := b.nextFolderID
      let b2 : Backend :=
        { b with
          folders := b.folders ++ [⟨newID, toString newID, cr.spec.folderTitle⟩],
          nextFolderID := b.nextFolderID + 1 }
      (Except.ok newID, b2, [BackendCall.listFolders, BackendCall.newFolder cr.spec.folderTitle])

/-- The outcome of `DeleteFolderIfEmpty`: the http.Response status code and
message built by the Go code, the error value, the resulting backend state
and the calls issued. -/
structure FolderDeleteOutcome where
  statusCode : Nat
  statusMsg : String
  err : Option GrafanaErr
  backend : Backend
  calls : List BackendCall
deriving DecidableEq, Repr

/-- `DeleteFolderIfEmpty` (dashboard_controller.go lines 424-455): list the
backend dashboards; if any references the folder id, answer 423 "resource
is still in use" without deleting; otherwise delete the folder (passing the
id formatted as a string), answering 500 on a delete error and 200 on
success.  There is no special case for folder id 0. -/
def DeleteFolderIfEmpty (b : Backend) (folderID : Int) : FolderDeleteOutcome :=
  if b.dashboards.any (fun d => d.folderID == folderID) then
    ⟨423, "resource is still in use", none, b, [BackendCall.listDashboards]⟩
  else
    match b.deleteFolder (toString folderID) with
    | Except.error e =>
      ⟨500, "internal grafana client error deleting grafana folder", some e, b,
        [BackendCall.listDashboards, BackendCall.deleteFolder (toString folderID)]⟩
    | Except.ok b2 =>
      ⟨200, "grafana folder deleted", none, b2,
        [BackendCall.listDashboards, BackendCall.deleteFolder (toString folderID)]⟩

/-- `fetchDashboardJson` (dashboard_controller.go lines 347-366): error when
zero or more than one content sources are set; otherwise resolve the single
source (inline JSON directly, remote URL through the external fetcher). -/
def fetchDashboardJson (env : Env) (cr : GrafanaDashboard) : Except GrafanaErr String :=
  let sourceTypes := cr.GetSourceTypes
  if sourceTypes.length == 0 then
    Except.error (GrafanaErr.configErr ("no source type provided for dashboard " ++ cr.name))
  else if sourceTypes.length > 1 then
    Except.error (GrafanaErr.configErr ("more than one source types found for dashboard " ++ cr.name))
  else
    match sourceTypes.head? with
    | some DashboardSourceType.rawJson => Except.ok cr.spec.json
    | some DashboardSourceType.url => env.fetchUrl cr.spec.url
    | none =>
      Except.error (GrafanaErr.configErr ("unknown source type found in dashboard " ++ cr.name))

/-- Everything `onDashboardCreated` produces: its result, the instance and
dashboard resources as left in the store, the backend state, and the
backend calls and status writes issued, in order. -/
structure CreateOutcome where
  result : Except GrafanaErr Unit
  grafana : Grafana
  cr : GrafanaDashboard
  backend : Backend
  calls : List BackendCall
  statusWrites : List StatusWrite
deriving DecidableEq, Repr

/-- `onDashboardCreated` (dashboard_controller.go lines 281-343): resolve
the content (error aborts before any backend call); store it into
`Spec.Json`; check `Exists` (one list-dashboards call) and skip with no
further effect when the uid is present and the hash is unchanged; otherwise
resolve or create the folder, issue the create-or-overwrite call, and on a
"success" answer add the tracked entry, write the instance status and then
the dashboard status hash. -/
def onDashboardCreated (env : Env) (g : Grafana) (b : Backend) (cr : GrafanaDashboard) :
    CreateOutcome :=
  match fetchDashboardJson env cr with
  | Except.error e => ⟨Except.error e, g, cr, b, [], []⟩
  | Except.ok dashboardJson =>
    let cr1 : GrafanaDashboard := { cr with spec := { cr.spec with json := dashboardJson } }
    let exists1 := ExistsDashboard b cr1
    if exists1 && cr1.Unchanged env then
      ⟨Except.ok (), g, cr1, b, [BackendCall.listDashboards], []⟩
    else
      match GetOrCreateFolder b cr1 with
      | (Except.error _e, b2, folderCalls) =>
        ⟨Except.error (GrafanaErr.internal ("folder error")), g, cr1, b2,
          BackendCall.listDashboards :: folderCalls, []⟩
      | (Except.ok folderID, b2, folderCalls) =>
        let calls := BackendCall.listDashboards :: folderCalls ++
          [BackendCall.newDashboard cr1.uid folderID]
        if b2.newDashStatus == "success" then
          let b3 := b2.upsertDashboard cr1.uid folderID
          let g2 : Grafana := { g with dashboards := trackedAdd g.dashboards cr1.ns cr1.name cr1.uid }
          let cr2 : GrafanaDashboard := { cr1 with statusHash := cr1.Hash env }
          ⟨Except.ok (), g2, cr2, b3, calls,
            [StatusWrite.grafanaStatus g2.name g2.dashboards,
             StatusWrite.dashboardStatus cr2.ns cr2.name cr2.statusHash]⟩
        else
          ⟨Except.error (GrafanaErr.badRequest ("error creating dashboard, status was " ++ b2.newDashStatus)),
            g, cr1, b2, calls, []⟩

/-- The result kind of a controller function that can also crash: the Go
code dereferences the client's dashboard result after tolerating a 404
error from the get, and on 404 that result is the nil pointer, so the
dereference is a run-time panic rather than a returned error. -/
inductive RunResult where
  | ok
  | err (e : GrafanaErr)
  | panicked
deriving DecidableEq, Repr

/-- Everything `onDashboardDeleted` produces: the run result, the per
instance store state (instance status paired with its backend state) and
the status writes issued. -/
structure DeleteOutcome where
  result : RunResult
  grafanas : List (Grafana × Backend)
  statusWrites : List StatusWrite
deriving DecidableEq, Repr

/-- `onDashboardDeleted` (dashboard_controller.go lines 224-279): for every
instance tracking the deleted (namespace, name): get the backend dashboard
by uid — a non-404 error aborts, a 404 error is tolerated by the error
check but leaves the returned dashboard nil, so the following read of
`dash.Folder` is a nil-pointer panic; delete the backend dashboard by uid
(404 tolerated); attempt folder cleanup, whose error aborts; remove the
plugins (external collaborator, modelled as succeeding); remove the tracked
entry and write one instance status update.  An abort leaves the current
instance's status unwritten and the remaining instances unprocessed. -/
def onDashboardDeleted (ns name : String) : List (Grafana × Backend) → DeleteOutcome
  | [] => ⟨RunResult.ok, [], []⟩
  | (g, b) :: rest =>
    match trackedFind g.dashboards ns name with
    | none =>
      let r := onDashboardDeleted ns name rest
      ⟨r.result, (g, b) :: r.grafanas, r.statusWrites⟩
    | some uid =>
      match b.dashboardByUID uid with
      | Except.error e =>
        if e != GrafanaErr.notFound404 then
          ⟨RunResult.err e, (g, b) :: rest, []⟩
        else
          ⟨RunResult.panicked, (g, b) :: rest, []⟩
      | Except.ok dash =>
        let folderID := dash.folderID
        let afterDelete : Backend → DeleteOutcome := fun b2 =>
          let fo := DeleteFolderIfEmpty b2 folderID
          match fo.err with
          | some e => ⟨RunResult.err e, (g, fo.backend) :: rest, []⟩
          | none =>
            let g2 : Grafana := { g with dashboards := trackedRemove g.dashboards ns name }
            let r := onDashboardDeleted ns name rest
            ⟨r.result, (g2, fo.backend) :: r.grafanas,
              StatusWrite.grafanaStatus g2.name g2.dashboards :: r.statusWrites⟩
        match b.deleteDashboardByUID uid with
        | Except.error e =>
          if e != GrafanaErr.notFound404 then
            ⟨RunResult.err e, (g, b) :: rest, []⟩
          else
            afterDelete b
        | Except.ok b2 => afterDelete b2

/-- `syncBatchSize` (dashboard_controller.go line 45). -/
def syncBatchSize : Nat := 100

/-- The result of the orphan deletion loop of `syncDashboards`
(dashboard_controller.go lines 105-121): the in-memory instance copy and
backend after processing, and the number of delete requests issued.
`completed` reaches the end of the orphan list, `capped` returns because
`dashboardsSynced >= syncBatchSize`, and `failed` returns a delete error
(the failing request counts as issued). -/
inductive SweepLoopResult where
  | completed (g : Grafana) (b : Backend) (issued : Nat)
  | capped (g : Grafana) (b : Backend) (issued : Nat)
  | failed (e : GrafanaErr) (g : Grafana) (b : Backend) (issued : Nat)
deriving DecidableEq, Repr

/-- The orphan deletion loop of `syncDashboards`: before each orphan the
batch cap is checked; then the backend delete is issued — any error,
including a 404, is returned as a failure — and on success the entry is
removed from the in-memory instance copy. -/
def sweepLoop (synced : Nat) (g : Grafana) (b : Backend) :
    List TrackedEntry → SweepLoopResult
  | [] => SweepLoopResult.completed g b 0
  | e :: rest =>
    if syncBatchSize ≤ synced then SweepLoopResult.capped g b 0
    else
      match b.deleteDashboardByUID e.uid with
      | Except.error er => SweepLoopResult.failed er g b 1
      | Except.ok b2 =>
        let g2 : Grafana := { g with dashboards := trackedRemove g.dashboards e.ns e.name }
        match sweepLoop (synced + 1) g2 b2 rest with
        | SweepLoopResult.completed g3 b3 n => SweepLoopResult.completed g3 b3 (n + 1)
        | SweepLoopResult.capped g3 b3 n => SweepLoopResult.capped g3 b3 (n + 1)
        | SweepLoopResult.failed er g3 b3 n => SweepLoopResult.failed er g3 b3 (n + 1)

/-- The world a sweep pass reads: every instance paired with its backend
state, and the (namespace, name) keys of the dashboard resources that
still exist. -/
structure SweepWorld where
  grafanas : List (Grafana × Backend)
  allDashboards : List (String × String)
deriving DecidableEq, Repr

/-- The orphan collection loop of `syncDashboards` (dashboard_controller.go
lines 89-96): every tracked entry whose (namespace, name) has no live
dashboard resource, in instance order then entry order.  In the Go code
these are appended to a map keyed by the address of the range variable;
with the pre-1.22 Go loop-variable semantics of this 2022 code base that
address is the same on every iteration, so all orphans accumulate in one
map entry. -/
def collectOrphans (w : SweepWorld) : List TrackedEntry :=
  (w.grafanas.map (fun gb =>
    gb.1.dashboards.filter (fun e =>
      !(w.allDashboards.any (fun d => d.1 == e.ns && d.2 == e.name))))).flatten

/-- Replaces the last element of a list. -/
def updateLast {α : Type} (l : List α) (x : α) : List α :=
  match l with
  | [] => []
  | [_] => [x]
  | a :: rest => a :: updateLast rest x

/-- Everything one `syncDashboards` pass produces: the ctrl.Result requeue
flag, the returned error, the store and backend state after the pass, the
number of backend delete requests issued, and the status writes issued. -/
structure SweepOutcome where
  requeue : Bool
  error : Option GrafanaErr
  grafanas : List (Grafana × Backend)
  deletesIssued : Nat
  statusWrites : List StatusWrite
deriving DecidableEq, Repr

/-- `syncDashboards` (dashboard_controller.go lines 60-135): no instances
means nothing to do; otherwise collect the orphans.  The per-instance map
holds at most one entry (see `collectOrphans`): its key dereferences to the
final instance of the list, so the grafana client, the in-memory tracked
list removals and the status update all target that final instance.  The
loop processes the orphans under the global batch cap; hitting the cap
returns requeue with no status update (the in-memory removals are
discarded), a delete error returns that error with no status update, and
completing the list writes the one instance status update and returns
no-requeue. -/
def syncDashboards (w : SweepWorld) : SweepOutcome :=
  match w.grafanas.getLast? with
  | none => ⟨false, none, w.grafanas, 0, []⟩
  | some (gL, bL) =>
    let orphans := collectOrphans w
    if orphans.isEmpty then ⟨false, none, w.grafanas, 0, []⟩
    else
      match sweepLoop 0 gL bL orphans with
      | SweepLoopResult.completed g b n =>
        ⟨false, none, updateLast w.grafanas (g, b), n,
          [StatusWrite.grafanaStatus g.name g.dashboards]⟩
      | SweepLoopResult.capped _ b n =>
        ⟨true, none, updateLast w.grafanas (gL, b), n, []⟩
      | SweepLoopResult.failed e _ b n =>
        ⟨false, some e, updateLast w.grafanas (gL, b), n, []⟩

/-- One matching instance as `Reconcile` sees it: the instance, its backend
state, and the result of the external plugin reconciliation collaborator
for this instance. -/
structure InstState where
  grafana : Grafana
  backend : Backend
  pluginsOk : Bool
deriving DecidableEq, Repr

/-- The state after the instance loop of `Reconcile`: the aggregated
success flag, the per-instance store and backend states, and the dashboard
resource (shared across iterations in the Go code). -/
structure ReconcileStep where
  success : Bool
  insts : List (Grafana × Backend)
  cr : GrafanaDashboard
deriving DecidableEq, Repr

/-- The instance loop of `Reconcile` (dashboard_controller.go lines
188-214): a non-ready instance clears the success flag and is skipped; for
a ready instance a plugin reconciliation failure clears the flag but the
dashboard import is still attempted, and an `onDashboardCreated` error
clears the flag.  Instance state already written is kept regardless of
later failures. -/
def reconcileMatched (env : Env) (cr : GrafanaDashboard) : List InstState → ReconcileStep
  | [] => ⟨true, [], cr⟩
  | i :: rest =>
    if !i.grafana.ready then
      let r := reconcileMatched env cr rest
      ⟨false, (i.grafana, i.backend) :: r.insts, r.cr⟩
    else
      let out := onDashboardCreated env i.grafana i.backend cr
      let stepOk := i.pluginsOk && (out.result == Except.ok ())
      let r := reconcileMatched env out.cr rest
      ⟨stepOk && r.success, (out.grafana, out.backend) :: r.insts, r.cr⟩

/-- The schedule part of a ctrl.Result: the fixed error-retry delay or a
resource resync period. -/
inductive Delay where
  | errorDelay
  | period (n : Nat)
deriving DecidableEq, Repr

/-- A ctrl.Result as returned by `Reconcile`. -/
structure CtrlResult where
  requeue : Bool
  requeueAfter : Option Delay
deriving DecidableEq, Repr

/-- Modelled from the spec: `RequeueDelayError`, the short fixed
error-retry delay (its definition lives outside the sources at hand). -/
def RequeueDelayError : Delay := Delay.errorDelay

/-- The outcome aggregation of `Reconcile` (dashboard_controller.go lines
216-221): all instances succeeded means requeue after the resource's
resync period, any failure means requeue after the fixed error delay. -/
def reconcileOutcome (cr : GrafanaDashboard) (success : Bool) : CtrlResult :=
  if success then ⟨false, some (Delay.period cr.resyncPeriod)⟩
  else ⟨false, some RequeueDelayError⟩

/-- The backend calls that write (create, overwrite or delete) as opposed
to read. -/
def isBackendWrite : BackendCall → Bool
  | BackendCall.deleteDashboardByUID _ => true
  | BackendCall.newDashboard _ _ => true
  | BackendCall.newFolder _ => true
  | BackendCall.deleteFolder _ => true
  | _ => false

/-- C8 counterexample: with folder id 0, a backend with no dashboard in
folder 0 and a folder whose uid is "0", `DeleteFolderIfEmpty` issues a
delete-folder call for "0" and actually deletes that folder — the claim
that folder id 0 is a no-op success that never issues a delete-folder call
is false. -/
theorem c8_counterexample :
    (DeleteFolderIfEmpty ⟨[], [⟨0, "0", "General"⟩], "success", 9⟩ 0).calls
        = [BackendCall.listDashboards, BackendCall.deleteFolder ("0")] ∧
      (DeleteFolderIfEmpty ⟨[], [⟨0, "0", "General"⟩], "success", 9⟩ 0).backend.folders = [] := by
  decide

/-- C8 amended: `DeleteFolderIfEmpty` has no special case for folder id 0.
When no backend dashboard sits in folder 0 it issues the delete-folder call
for "0"; when some dashboard sits in folder 0 it answers 423 without a
delete call. -/
theorem c8_amended (b : Backend) :
    (b.dashboards.any (fun d => d.folderID == 0) = false →
      (DeleteFolderIfEmpty b 0).calls
        = [BackendCall.listDashboards, BackendCall.deleteFolder ("0")]) ∧
    (b.dashboards.any (fun d => d.folderID == 0) = true →
      (DeleteFolderIfEmpty b 0).statusCode = 423 ∧
        (DeleteFolderIfEmpty b 0).calls = [BackendCall.listDashboards]) := by
  have h0 : toString (0 : Int) = "0" := rfl
  constructor
  · intro h
    unfold DeleteFolderIfEmpty
    rw [h]
    simp only [Bool.false_eq_true, if_false, h0]
    cases hd : b.deleteFolder ("0") <;> simp
  · intro h
    unfold DeleteFolderIfEmpty
    rw [h]
    simp

/-- C8 witness: the amended theorem applied to the two concrete backends of
each branch. -/
theorem c8_witness :
    (DeleteFolderIfEmpty (⟨[], [⟨0, "0", "General"⟩], "success", 9⟩ : Backend) 0).calls
        = [BackendCall.listDashboards, BackendCall.deleteFolder ("0")] ∧
      (DeleteFolderIfEmpty (⟨[⟨"x", 0⟩], [], "success", 9⟩ : Backend) 0).statusCode = 423 :=
  ⟨(c8_amended ⟨[], [⟨0, "0", "General"⟩], "success", 9⟩).1 (by decide),
    ((c8_amended ⟨[⟨"x", 0⟩], [], "success", 9⟩).2 (by decide)).1⟩

/-- C9: `GetFolderID` answers 0 both when no backend folder has the
resource's title and when the first matching folder itself has id 0, and in
the latter case `GetOrCreateFolder` with a non-empty title issues a
create-folder call even though a folder with that title already exists. -/
theorem c9_folder_zero (b : Backend) (cr : GrafanaDashboard) :
    (b.folders.find? (fun f => f.title == cr.spec.folderTitle) = none →
      GetFolderID b cr = 0) ∧
    (∀ f, b.folders.find? (fun f2 => f2.title == cr.spec.folderTitle) = some f →
      f.id = 0 → GetFolderID b cr = 0) ∧
    (cr.spec.folderTitle ≠ "" → GetFolderID b cr = 0 →
      (GetOrCreateFolder b cr).2.2
          = [BackendCall.listFolders, BackendCall.newFolder cr.spec.folderTitle] ∧
        (GetOrCreateFolder b cr).1 = Except.ok b.nextFolderID) := by
  refine ⟨?_, ?_, ?_⟩
  · intro h
    unfold GetFolderID
    rw [h]
  · intro f hf hid
    unfold GetFolderID
    rw [hf]
    exact hid
  · intro htitle hzero
    unfold GetOrCreateFolder
    have ht : (cr.spec.folderTitle == "") = false := by
      simpa using htitle
    rw [ht]
    simp only [Bool.false_eq_true, if_false, hzero]
    simp

/-- C9 witness: with a backend holding exactly one folder, titled "T" with
id 0, and a resource with folder title "T", the folder lookup answers 0 and
`GetOrCreateFolder` issues the create call. -/
theorem c9_witness :
    GetFolderID (⟨[], [⟨0, "z", "T"⟩], "success", 42⟩ : Backend)
        (⟨"n", "d", "uidA", ⟨"x", "", "T"⟩, "", 60⟩ : GrafanaDashboard) = 0 ∧
      (GetOrCreateFolder (⟨[], [⟨0, "z", "T"⟩], "success", 42⟩ : Backend)
          (⟨"n", "d", "uidA", ⟨"x", "", "T"⟩, "", 60⟩ : GrafanaDashboard)).2.2
        = [BackendCall.listFolders, BackendCall.newFolder ("T")] :=
  ⟨(c9_folder_zero ⟨[], [⟨0, "z", "T"⟩], "success", 42⟩
      ⟨"n", "d", "uidA", ⟨"x", "", "T"⟩, "", 60⟩).2.1 ⟨0, "z", "T"⟩ (by decide) (by decide),
    ((c9_folder_zero ⟨[], [⟨0, "z", "T"⟩], "success", 42⟩
        ⟨"n", "d", "uidA", ⟨"x", "", "T"⟩, "", 60⟩).2.2 (by decide) (by decide)).1⟩

/-- Skip path of `onDashboardCreated`: when content resolution succeeds,
the digest of the resolved content equals the hash in status and the
backend already lists the resource's UID, the only effect is the one
list-dashboards read behind `Exists`. -/
theorem onDashboardCreated_skip (env : Env) (g : Grafana) (b : Backend)
    (cr : GrafanaDashboard) (js : String)
    (hfetch : fetchDashboardJson env cr = Except.ok js)
    (hhash : env.hashFn js = cr.statusHash)
    (huid : ExistsDashboard b cr = true) :
    onDashboardCreated env g b cr =
      ⟨Except.ok (), g, { cr with spec := { cr.spec with json := js } }, b,
        [BackendCall.listDashboards], []⟩ := by
  have h1 : ExistsDashboard b { cr with spec := { cr.spec with json := js } } = true := huid
  have h2 : GrafanaDashboard.Unchanged { cr with spec := { cr.spec with json := js } } env
      = true := by
    simp [GrafanaDashboard.Unchanged, GrafanaDashboard.Hash, hhash]
  unfold onDashboardCreated
  rw [hfetch]
  simp only [h1, h2, Bool.and_self, if_true]

/-- C2: reconciling an already-converged resource issues zero backend
write calls — when the status hash equals the digest of the freshly
resolved content and the backend already lists the UID,
`onDashboardCreated` makes no create-or-overwrite, delete or folder write
request and reports success. -/
theorem c2_skip_no_backend_write (env : Env) (g : Grafana) (b : Backend)
    (cr : GrafanaDashboard) (js : String)
    (hfetch : fetchDashboardJson env cr = Except.ok js)
    (hhash : env.hashFn js = cr.statusHash)
    (huid : ExistsDashboard b cr = true) :
    (onDashboardCreated env g b cr).calls.filter isBackendWrite = [] ∧
      (onDashboardCreated env g b cr).result = Except.ok () := by
  rw [onDashboardCreated_skip env g b cr js hfetch hhash huid]
  exact ⟨rfl, rfl⟩

/-- C2 witness: a resource with inline content already hashed in status and
tracked by uid on the backend. -/
theorem c2_witness :
    fetchDashboardJson (⟨fun s => s, fun _ => Except.error GrafanaErr.notFound404⟩ : Env)
        (⟨"n", "d", "uidA", ⟨"x", "", ""⟩, "x", 60⟩ : GrafanaDashboard) = Except.ok ("x") ∧
      (onDashboardCreated (⟨fun s => s, fun _ => Except.error GrafanaErr.notFound404⟩ : Env)
          (⟨"gA", OperatorStageComplete, OperatorStageResultSuccess, []⟩ : Grafana)
          (⟨[⟨"uidA", 0⟩], [], "success", 7⟩ : Backend)
          (⟨"n", "d", "uidA", ⟨"x", "", ""⟩, "x", 60⟩ : GrafanaDashboard)).calls.filter
        isBackendWrite = [] :=
  ⟨by decide,
    (c2_skip_no_backend_write ⟨fun s => s, fun _ => Except.error GrafanaErr.notFound404⟩
      ⟨"gA", OperatorStageComplete, OperatorStageResultSuccess, []⟩
      ⟨[⟨"uidA", 0⟩], [], "success", 7⟩
      ⟨"n", "d", "uidA", ⟨"x", "", ""⟩, "x", 60⟩ ("x") (by decide) (by decide) (by decide)).1⟩

/-- C10: on the skip path of `onDashboardCreated` no status write of any
kind happens — the instance's tracked list and the resource's status hash
are left as they were, the backend is untouched, and the only backend call
is the list-dashboards read (no folder resolution or creation). -/
theorem c10_skip_frame (env : Env) (g : Grafana) (b : Backend)
    (cr : GrafanaDashboard) (js : String)
    (hfetch : fetchDashboardJson env cr = Except.ok js)
    (hhash : env.hashFn js = cr.statusHash)
    (huid : ExistsDashboard b cr = true) :
    (onDashboardCreated env g b cr).statusWrites = [] ∧
      (onDashboardCreated env g b cr).grafana = g ∧
      (onDashboardCreated env g b cr).backend = b ∧
      (onDashboardCreated env g b cr).cr.statusHash = cr.statusHash ∧
      (onDashboardCreated env g b cr).calls = [BackendCall.listDashboards] := by
  rw [onDashboardCreated_skip env g b cr js hfetch hhash huid]
  exact ⟨rfl, rfl, rfl, rfl, rfl⟩

/-- C10 witness: the same converged resource as for the C2 witness; the
second reconcile leaves instance, backend and status hash untouched. -/
theorem c10_witness :
    (onDashboardCreated (⟨fun s => s, fun _ => Except.error GrafanaErr.notFound404⟩ : Env)
          (⟨"gB", OperatorStageComplete, OperatorStageResultSuccess, []⟩ : Grafana)
          (⟨[⟨"uidB", 0⟩], [], "success", 7⟩ : Backend)
          (⟨"n", "d", "uidB", ⟨"y", "", ""⟩, "y", 60⟩ : GrafanaDashboard)).statusWrites = [] ∧
      (onDashboardCreated (⟨fun s => s, fun _ => Except.error GrafanaErr.notFound404⟩ : Env)
          (⟨"gB", OperatorStageComplete, OperatorStageResultSuccess, []⟩ : Grafana)
          (⟨[⟨"uidB", 0⟩], [], "success", 7⟩ : Backend)
          (⟨"n", "d", "uidB", ⟨"y", "", ""⟩, "y", 60⟩ : GrafanaDashboard)).calls
        = [BackendCall.listDashboards] :=
  ⟨(c10_skip_frame ⟨fun s => s, fun _ => Except.error GrafanaErr.notFound404⟩
      ⟨"gB", OperatorStageComplete, OperatorStageResultSuccess, []⟩
      ⟨[⟨"uidB", 0⟩], [], "success", 7⟩
      ⟨"n", "d", "uidB", ⟨"y", "", ""⟩, "y", 60⟩ ("y") (by decide) (by decide) (by decide)).1,
    (c10_skip_frame ⟨fun s => s, fun _ => Except.error GrafanaErr.notFound404⟩
      ⟨"gB", OperatorStageComplete, OperatorStageResultSuccess, []⟩
      ⟨[⟨"uidB", 0⟩], [], "success", 7⟩
      ⟨"n", "d", "uidB", ⟨"y", "", ""⟩, "y", 60⟩ ("y") (by decide) (by decide) (by decide)).2.2.2.2⟩

/-- C6: a resource with zero content sources or more than one content
source never reaches a backend call — `fetchDashboardJson` answers a
configuration error, `onDashboardCreated` propagates it before any backend
call, folder resolution or status write, and instance and backend are left
untouched. -/
theorem c6_exactly_one_source (env : Env) (g : Grafana) (b : Backend)
    (cr : GrafanaDashboard) (hsrc : cr.GetSourceTypes.length ≠ 1) :
    (∃ m, fetchDashboardJson env cr = Except.error (GrafanaErr.configErr m)) ∧
      (∃ m, (onDashboardCreated env g b cr).result = Except.error (GrafanaErr.configErr m)) ∧
      (onDashboardCreated env g b cr).calls = [] ∧
      (onDashboardCreated env g b cr).statusWrites = [] ∧
      (onDashboardCreated env g b cr).grafana = g ∧
      (onDashboardCreated env g b cr).backend = b := by
  have hfe : ∃ m, fetchDashboardJson env cr = Except.error (GrafanaErr.configErr m) := by
    by_cases h0 : cr.GetSourceTypes.length = 0
    · exact ⟨("no source type provided for dashboard " ++ cr.name),
        by simp [fetchDashboardJson, h0]⟩
    · have h1 : 1 < cr.GetSourceTypes.length := by omega
      exact ⟨("more than one source types found for dashboard " ++ cr.name),
        by simp [fetchDashboardJson, h0, h1]⟩
  obtain ⟨m, hm⟩ := hfe
  have hout : onDashboardCreated env g b cr =
      ⟨Except.error (GrafanaErr.configErr m), g, cr, b, [], []⟩ := by
    unfold onDashboardCreated
    rw [hm]
  exact ⟨⟨m, hm⟩, ⟨m, by rw [hout]⟩, by rw [hout], by rw [hout], by rw [hout], by rw [hout]⟩

/-- C6 witness: a resource with both the inline JSON and the URL source
set (two sources), reconciled against a ready instance. -/
theorem c6_witness :
    (⟨"n", "d", "uidC", ⟨"x", "http", ""⟩, "", 60⟩ : GrafanaDashboard).GetSourceTypes.length
        = 2 ∧
      (onDashboardCreated (⟨fun s => s, fun _ => Except.error GrafanaErr.notFound404⟩ : Env)
          (⟨"gC", OperatorStageComplete, OperatorStageResultSuccess, []⟩ : Grafana)
          (⟨[], [], "success", 7⟩ : Backend)
          (⟨"n", "d", "uidC", ⟨"x", "http", ""⟩, "", 60⟩ : GrafanaDashboard)).calls = [] :=
  ⟨by decide,
    (c6_exactly_one_source ⟨fun s => s, fun _ => Except.error GrafanaErr.notFound404⟩
      ⟨"gC", OperatorStageComplete, OperatorStageResultSuccess, []⟩
      ⟨[], [], "success", 7⟩
      ⟨"n", "d", "uidC", ⟨"x", "http", ""⟩, "", 60⟩ (by decide)).2.2.1⟩

/-- C7: in the instance loop of `Reconcile`, when one targeted instance
fails — not ready, plugin reconciliation error, or dashboard write error —
while another succeeds, the aggregated outcome is the fixed error-retry
delay rather than the resource's resync period, and the successful
instance's written state — the instance status and backend state
`onDashboardCreated` produced — is kept, not rolled back.  For contrast,
the all-success aggregation answers the resync period. -/
theorem c7_partial_failure (env : Env) (cr : GrafanaDashboard) (iA iB : InstState)
    (hA : iA.grafana.ready = true)
    (hAp : iA.pluginsOk = true)
    (hAok : (onDashboardCreated env iA.grafana iA.backend cr).result = Except.ok ())
    (hBfail : iB.grafana.ready = false ∨ iB.pluginsOk = false ∨
      (onDashboardCreated env iB.grafana iB.backend
          (onDashboardCreated env iA.grafana iA.backend cr).cr).result ≠ Except.ok ()) :
    (reconcileMatched env cr [iA, iB]).success = false ∧
      reconcileOutcome (reconcileMatched env cr [iA, iB]).cr
          (reconcileMatched env cr [iA, iB]).success = ⟨false, some RequeueDelayError⟩ ∧
      (reconcileMatched env cr [iA, iB]).insts.head? =
        some ((onDashboardCreated env iA.grafana iA.backend cr).grafana,
          (onDashboardCreated env iA.grafana iA.backend cr).backend) ∧
      reconcileOutcome cr true = ⟨false, some (Delay.period cr.resyncPeriod)⟩ := by
  have hsucc : (reconcileMatched env cr [iA, iB]).success = false := by
    rcases hBfail with hB | hB | hB
    · simp [reconcileMatched, hA, hAp, hAok, hB]
    · by_cases hBr : iB.grafana.ready = true
      · simp [reconcileMatched, hA, hAp, hAok, hBr, hB]
      · have hBr2 : iB.grafana.ready = false := by simpa using hBr
        simp [reconcileMatched, hA, hAp, hAok, hBr2]
    · by_cases hBr : iB.grafana.ready = true
      · simp [reconcileMatched, hA, hAp, hAok, hBr, hB]
      · have hBr2 : iB.grafana.ready = false := by simpa using hBr
        simp [reconcileMatched, hA, hAp, hAok, hBr2]
  have hinsts : (reconcileMatched env cr [iA, iB]).insts.head? =
      some ((onDashboardCreated env iA.grafana iA.backend cr).grafana,
        (onDashboardCreated env iA.grafana iA.backend cr).backend) := by
    simp [reconcileMatched, hA]
  refine ⟨hsucc, ?_, hinsts, rfl⟩
  rw [hsucc]
  rfl

/-- The external collaborators of the C7 witness scenario. -/
def c7Env : Env := ⟨fun s => s, fun _ => Except.error GrafanaErr.notFound404⟩

/-- The dashboard resource of the C7 witness scenario (inline source only,
status hash empty so the write path is taken). -/
def c7Cr : GrafanaDashboard := ⟨"n", "d", "uidA", ⟨"x", "", ""⟩, "", 60⟩

/-- The succeeding ready instance of the C7 witness scenario. -/
def c7IA : InstState :=
  ⟨⟨"gA", OperatorStageComplete, OperatorStageResultSuccess, []⟩, ⟨[], [], "success", 7⟩, true⟩

/-- The failing, not-ready instance of the C7 witness scenario. -/
def c7IB : InstState :=
  ⟨⟨"gB", "progressing", OperatorStageResultSuccess, []⟩, ⟨[], [], "success", 7⟩, true⟩

/-- C7 witness: two matching instances, the first ready and succeeding, the
second not ready; the pass aggregates to the error delay while the first
instance's tracked list keeps the written entry. -/
theorem c7_witness :
    (reconcileMatched c7Env c7Cr [c7IA, c7IB]).success = false ∧
      reconcileOutcome (reconcileMatched c7Env c7Cr [c7IA, c7IB]).cr
          (reconcileMatched c7Env c7Cr [c7IA, c7IB]).success = ⟨false, some RequeueDelayError⟩ ∧
      ((reconcileMatched c7Env c7Cr [c7IA, c7IB]).insts.map
          (fun p => trackedFind p.1.dashboards ("n") ("d")))
        = [some ("uidA"), none] :=
  ⟨(c7_partial_failure c7Env c7Cr c7IA c7IB (by decide) (by decide) (by decide)
      (Or.inl (by decide))).1,
    (c7_partial_failure c7Env c7Cr c7IA c7IB (by decide) (by decide) (by decide)
      (Or.inl (by decide))).2.1,
    by decide⟩

/-- C3: with one instance tracking the deleted resource and a backend that
answers 404 to both the get and the delete for its uid, `onDashboardDeleted`
does not remove the tracked entry, writes no status update and surfaces no
error value — instead its 404-tolerant get branch falls through to reading
the folder field of the nil dashboard result, a nil-pointer panic.  This
contradicts the code's own 404-tolerance intent, so the claim marks a code
bug. -/
theorem c3_deletion_handler_panics :
    (onDashboardDeleted ("ns") ("d")
        [(⟨"gA", OperatorStageComplete, OperatorStageResultSuccess, [⟨"ns", "d", "u1"⟩]⟩,
          ⟨[], [], "success", 1⟩)]).result = RunResult.panicked ∧
      (onDashboardDeleted ("ns") ("d")
        [(⟨"gA", OperatorStageComplete, OperatorStageResultSuccess, [⟨"ns", "d", "u1"⟩]⟩,
          ⟨[], [], "success", 1⟩)]).statusWrites = [] ∧
      (onDashboardDeleted ("ns") ("d")
        [(⟨"gA", OperatorStageComplete, OperatorStageResultSuccess, [⟨"ns", "d", "u1"⟩]⟩,
          ⟨[], [], "success", 1⟩)]).grafanas =
        [(⟨"gA", OperatorStageComplete, OperatorStageResultSuccess, [⟨"ns", "d", "u1"⟩]⟩,
          ⟨[], [], "success", 1⟩)] := by
  decide

/-- The instance of the C4 scenario: ready, tracking one entry whose
resource no longer exists. -/
def c4G : Grafana := ⟨"gA", OperatorStageComplete, OperatorStageResultSuccess, [⟨"n", "d", "u1"⟩]⟩

/-- The backend of the C4 scenario: it does not hold uid "u1", so the
delete answers 404. -/
def c4B : Backend := ⟨[], [], "success", 1⟩

/-- The C4 sweep world: one instance, one orphaned tracked entry, no live
dashboard resources. -/
def c4World : SweepWorld := ⟨[(c4G, c4B)], []⟩

/-- C4 counterexample: a 404 from the backend delete during the orphan
sweep is not swallowed — the pass returns it as its error, removes nothing
from the tracked list and writes no status update, refuting the claim that
the sweep treats a delete 404 as success and continues. -/
theorem c4_counterexample :
    (syncDashboards c4World).error = some GrafanaErr.notFound404 ∧
      (syncDashboards c4World).requeue = false ∧
      (syncDashboards c4World).statusWrites = [] ∧
      (syncDashboards c4World).grafanas = c4World.grafanas := by
  decide

/-- C4 amended: when the first orphan's uid is absent from the final
instance's backend, the sweep pass aborts with the 404 error: no requeue,
no status write, and the persisted instance statuses are unchanged. -/
theorem c4_amended (w : SweepWorld) (gL : Grafana) (bL : Backend)
    (e : TrackedEntry) (rest : List TrackedEntry)
    (hlast : w.grafanas.getLast? = some (gL, bL))
    (horph : collectOrphans w = e :: rest)
    (habs : bL.dashboards.any (fun d => d.uid == e.uid) = false) :
    (syncDashboards w).error = some GrafanaErr.notFound404 ∧
      (syncDashboards w).requeue = false ∧
      (syncDashboards w).statusWrites = [] ∧
      (syncDashboards w).grafanas = updateLast w.grafanas (gL, bL) := by
  have hdel : bL.deleteDashboardByUID e.uid = Except.error GrafanaErr.notFound404 := by
    simp [Backend.deleteDashboardByUID, habs]
  have hloop : sweepLoop 0 gL bL (e :: rest)
      = SweepLoopResult.failed GrafanaErr.notFound404 gL bL 1 := by
    simp [sweepLoop, syncBatchSize, hdel]
  unfold syncDashboards
  rw [hlast]
  simp [horph, hloop, List.isEmpty_cons]

/-- C4 witness: the amended theorem applied to the concrete C4 world. -/
theorem c4_witness :
    (syncDashboards c4World).error = some GrafanaErr.notFound404 ∧
      (syncDashboards c4World).grafanas = updateLast c4World.grafanas (c4G, c4B) :=
  ⟨(c4_amended c4World c4G c4B ⟨"n", "d", "u1"⟩ [] (by decide) (by decide) (by decide)).1,
    (c4_amended c4World c4G c4B ⟨"n", "d", "u1"⟩ [] (by decide) (by decide) (by decide)).2.2.2⟩

/-- A list with no last element is empty. -/
theorem getLast?_none_nil {α : Type} (l : List α) (h : l.getLast? = none) : l = [] := by
  cases l with
  | nil => rfl
  | cons a as => simp [List.getLast?] at h

/-- The number of backend delete requests a sweep loop run issued. -/
def SweepLoopResult.issued : SweepLoopResult → Nat
  | SweepLoopResult.completed _ _ n => n
  | SweepLoopResult.capped _ _ n => n
  | SweepLoopResult.failed _ _ _ n => n

/-- The sweep loop started at counter `s` issues at most
`syncBatchSize - s` delete requests: the counter is checked before every
delete, a failing delete stops the loop, and a successful one advances the
counter. -/
theorem sweepLoop_issued_le (l : List TrackedEntry) :
    ∀ (s : Nat) (g : Grafana) (b : Backend),
      (sweepLoop s g b l).issued ≤ syncBatchSize - s := by
  induction l with
  | nil =>
    intro s g b
    simp [sweepLoop, SweepLoopResult.issued]
  | cons e rest ih =>
    intro s g b
    rw [sweepLoop]
    split
    · simp [SweepLoopResult.issued]
    · rename_i hs
      have hs2 : s < syncBatchSize := Nat.lt_of_not_le hs
      split
      · simp only [SweepLoopResult.issued]
        omega
      · rename_i b2 hdel
        have h := ih (s + 1) { g with dashboards := trackedRemove g.dashboards e.ns e.name } b2
        dsimp only
        split <;> rename_i heq <;> rw [heq] at h <;>
          simp only [SweepLoopResult.issued] at h ⊢ <;> omega

/-- One sweep pass issues at most `syncBatchSize` backend delete
requests, whatever the world looks like. -/
theorem syncDashboards_deletes_le (w : SweepWorld) :
    (syncDashboards w).deletesIssued ≤ syncBatchSize := by
  unfold syncDashboards
  cases hl : w.grafanas.getLast? with
  | none => simp
  | some p =>
    obtain ⟨gL, bL⟩ := p
    by_cases ho : (collectOrphans w).isEmpty
    · simp [ho]
    · have h := sweepLoop_issued_le (collectOrphans w) 0 gL bL
      simp only [Nat.sub_zero] at h
      simp only [ho, Bool.false_eq_true, if_false]
      cases hsl : sweepLoop 0 gL bL (collectOrphans w) <;>
        rw [hsl] at h <;> simpa [SweepLoopResult.issued] using h

/-- C5 amended: a sweep pass writes at most one instance status update,
and only when the orphan list was processed to the end: a pass that hits
the batch cap (requeue) or fails writes none — in particular the instance
being processed when the cap is hit gets no status write, so its in-memory
removals are not persisted — while a pass that completes a non-empty
orphan list writes exactly one. -/
theorem c5_amended (w : SweepWorld) :
    (syncDashboards w).statusWrites.length ≤ 1 ∧
      ((syncDashboards w).requeue = true → (syncDashboards w).statusWrites = []) ∧
      ((syncDashboards w).error.isSome = true → (syncDashboards w).statusWrites = []) ∧
      ((syncDashboards w).requeue = false → (syncDashboards w).error = none →
        collectOrphans w ≠ [] → w.grafanas ≠ [] →
        (syncDashboards w).statusWrites.length = 1) := by
  unfold syncDashboards
  cases hl : w.grafanas.getLast? with
  | none =>
    have hnil : w.grafanas = [] := getLast?_none_nil w.grafanas hl
    refine ⟨by simp, by simp, by simp, ?_⟩
    intro _ _ _ hgr
    exact absurd hnil hgr
  | some p =>
    obtain ⟨gL, bL⟩ := p
    by_cases ho : (collectOrphans w).isEmpty
    · have hoe : collectOrphans w = [] := by
        simpa using ho
      refine ⟨by simp [ho], by simp [ho], by simp [ho], ?_⟩
      intro _ _ horph _
      exact absurd hoe horph
    · simp only [ho, Bool.false_eq_true, if_false]
      cases hsl : sweepLoop 0 gL bL (collectOrphans w) with
      | completed g b n => simp
      | capped g b n => simp
      | failed e g b n => simp

/-- The instance of the C5 scenario: ready and tracking 101 entries, all
of whose resources are gone. -/
def c5G : Grafana :=
  ⟨"gA", OperatorStageComplete, OperatorStageResultSuccess,
    (List.range 101).map (fun i => ⟨"n", toString i, toString i⟩)⟩

/-- The backend of the C5 scenario: it holds all 101 tracked uids. -/
def c5B : Backend := ⟨(List.range 101).map (fun i => ⟨toString i, 0⟩), [], "success", 1⟩

/-- The C5 sweep world: one instance, 101 orphans, no live resources. -/
def c5World : SweepWorld := ⟨[(c5G, c5B)], []⟩

/-- The C5 backend after one pass: the first 100 uids deleted. -/
def c5BAfter : Backend :=
  ⟨((List.range 101).drop 100).map (fun i => ⟨toString i, 0⟩), [], "success", 1⟩

set_option maxRecDepth 10000 in
/-- C5 counterexample: the batch cap is hit mid-instance after 100
processed orphans, and the pass returns requeue with ZERO status writes —
the persisted instance status still holds all 101 entries, refuting the
claim that the in-progress instance still gets its one status write
persisting the removals. -/
theorem c5_counterexample :
    syncDashboards c5World = ⟨true, none, [(c5G, c5BAfter)], 100, []⟩ := by
  decide

/-- The instance of the C5 witness completed pass: two orphans, both on
the backend. -/
def c5DoneG : Grafana :=
  ⟨"gA", OperatorStageComplete, OperatorStageResultSuccess,
    [⟨"n", "d1", "u1"⟩, ⟨"n", "d2", "u2"⟩]⟩

/-- The backend of the C5 witness completed pass. -/
def c5DoneB : Backend := ⟨[⟨"u1", 0⟩, ⟨"u2", 0⟩], [], "success", 1⟩

/-- The C5 witness world whose orphan list completes under the cap. -/
def c5DoneWorld : SweepWorld := ⟨[(c5DoneG, c5DoneB)], []⟩

set_option maxRecDepth 10000 in
/-- C5 witness: the amended theorem applied to a completed pass (exactly
one status write) and to the capped 101-orphan pass (no status write). -/
theorem c5_witness :
    (syncDashboards c5DoneWorld).statusWrites.length = 1 ∧
      (syncDashboards c5World).statusWrites = [] :=
  ⟨(c5_amended c5DoneWorld).2.2.2 (by decide) (by decide) (by decide) (by decide),
    (c5_amended c5World).2.1 (by decide)⟩

/-- The instance of the C1 scenario: ready and tracking 250 entries, all
of whose resources are gone. -/
def c1G : Grafana :=
  ⟨"gA", OperatorStageComplete, OperatorStageResultSuccess,
    (List.range 250).map (fun i => ⟨"n", toString i, toString i⟩)⟩

/-- The backend of the C1 scenario: it holds all 250 tracked uids. -/
def c1B : Backend := ⟨(List.range 250).map (fun i => ⟨toString i, 0⟩), [], "success", 1⟩

/-- The C1 sweep world: one instance, 250 orphans, no live resources. -/
def c1World : SweepWorld := ⟨[(c1G, c1B)], []⟩

/-- The C1 backend after the first pass: the first 100 uids deleted. -/
def c1BAfter : Backend :=
  ⟨((List.range 250).drop 100).map (fun i => ⟨toString i, 0⟩), [], "success", 1⟩

/-- The world the second C1 pass reads: the instance status was never
written by the capped first pass, so it still lists all 250 entries, while
the backend now only holds the last 150 uids. -/
def c1Pass2World : SweepWorld := ⟨[(c1G, c1BAfter)], []⟩

set_option maxRecDepth 100000 in
/-- C1 counterexample: with 250 orphaned entries the first pass deletes
exactly 100 and requeues, but it returns before the status update, so the
persisted tracked list still holds all 250 entries; the subsequent pass
therefore re-attempts an already-deleted uid, gets a 404 from the backend
delete and aborts with that error after a single request — it neither
finishes the remaining 150 nor returns a clean no-requeue outcome,
refuting the claim's second half. -/
theorem c1_counterexample :
    syncDashboards c1World = ⟨true, none, [(c1G, c1BAfter)], 100, []⟩ ∧
      syncDashboards c1Pass2World
        = ⟨false, some GrafanaErr.notFound404, [(c1G, c1BAfter)], 1, []⟩ := by
  constructor
  · decide
  · decide

set_option maxRecDepth 100000 in
/-- C1 amended: in one sweep pass at most 100 backend deletions are issued
in total across all instances (the cap is global to the pass); with 250
orphaned tracked entries the pass deletes exactly 100 and returns a
requeue outcome, but because the capped pass skips the status update, the
subsequent pass re-attempts already-deleted uids and aborts with the
backend's 404 error instead of finishing the rest. -/
theorem c1_amended :
    (∀ w : SweepWorld, (syncDashboards w).deletesIssued ≤ syncBatchSize) ∧
      syncDashboards c1World = ⟨true, none, [(c1G, c1BAfter)], 100, []⟩ ∧
      syncDashboards c1Pass2World
        = ⟨false, some GrafanaErr.notFound404, [(c1G, c1BAfter)], 1, []⟩ :=
  ⟨syncDashboards_deletes_le, by decide, by decide⟩
